import Mathlib

/-!
Shallow embedding of the Behringer Neutron SysEx codec from
`src/rustron-lib/src/protocol.rs` (data types and encoders) and
`src/rustron-lib/src/parser.rs` (nom-based decoders).

Bytes are modelled as `Nat` (the source uses `u8`; all literal byte values
are below 256 and the encoders only emit such values).  Rust `Vec<u8>`
buffers are `List Nat`, appended in push order.  Rust `String` payloads are
modelled by their UTF-8 byte sequences (`List Nat`); `String::from_utf8_lossy`
composed with `String::as_bytes` is the identity on such sequences.
-/

namespace Rustron

def SYSEX_MESSAGE_START : Nat := 0xf0

def SYSEX_EOX : Nat := 0xf7

def BEHRINGER_MANUFACTURER : List Nat := [0x00, 0x20, 0x32]

def NEUTRON_DEVICE : Nat := 0x28

def NEUTRON_MESSAGE_HEADER : List Nat :=
  [SYSEX_MESSAGE_START] ++ BEHRINGER_MANUFACTURER ++ [NEUTRON_DEVICE]

def COMMS_PROTOCOL_V1 : Nat := 0x01

/-! Exact model of the IEEE-754 binary32 (`f32`) arithmetic used by
`Percent::from_percentage`.  Every `f32` value arising there is a positive
rational in the normal range, so a float is represented by the exact
rational it denotes and each arithmetic step is followed by a correct
rounding (round to nearest, ties to even) to 24 significant bits. -/

/-- Structural base-2 logarithm with explicit fuel (floor of log2, 0 at 0 and 1). -/
def log2fuel : Nat → Nat → Nat
  | 0, _ => 0
  | fuel + 1, n => if n ≤ 1 then 0 else log2fuel fuel (n / 2) + 1

/-- Floor of the base-2 logarithm of a natural number. -/
def nlog2 (n : Nat) : Nat := log2fuel n n

/-! The rational arithmetic below is spelled out on numerators and
denominators through `mkRat`, so that every step evaluates by plain
reduction. -/

/-- Product of two rationals. -/
def rmul (a b : ℚ) : ℚ := mkRat (a.num * b.num) (a.den * b.den)

/-- Difference of two rationals. -/
def rsub (a b : ℚ) : ℚ :=
  mkRat (a.num * (b.den : ℤ) - b.num * (a.den : ℤ)) (a.den * b.den)

/-- Quotient of a rational by a positive rational. -/
def rdiv (a b : ℚ) : ℚ := mkRat (a.num * (b.den : ℤ)) (a.den * b.num.toNat)

/-- Boolean `a ≤ b` on rationals, by cross-multiplying with the (positive)
denominators. -/
def rleb (a b : ℚ) : Bool :=
  decide (a.num * (b.den : ℤ) ≤ b.num * (a.den : ℤ))

/-- Boolean `a < b` on rationals. -/
def rltb (a b : ℚ) : Bool :=
  decide (a.num * (b.den : ℤ) < b.num * (a.den : ℤ))

/-- The rational 2^e for an integer exponent e. -/
def pow2 (e : ℤ) : ℚ :=
  if 0 ≤ e then mkRat (2 ^ e.toNat) 1 else mkRat 1 (2 ^ (-e).toNat)

/-- Floor of the base-2 logarithm of a positive rational: the unique e with
2^e ≤ q < 2^(e+1), computed from the logarithms of numerator and denominator
and corrected by at most one. -/
def floorLog2 (q : ℚ) : ℤ :=
  let e0 : ℤ := (nlog2 q.num.toNat : ℤ) - (nlog2 q.den : ℤ)
  if rleb (pow2 (e0 + 1)) q then e0 + 1 else if rleb (pow2 e0) q then e0 else e0 - 1

/-- Truncation of a nonnegative rational to a natural number (this is what
Rust's `as u8` cast does to the nonnegative in-range floats appearing in
`Percent::from_percentage`). -/
def ratTruncNat (q : ℚ) : ℕ := q.num.toNat / q.den

/-- Round a positive rational to the nearest integer, ties to even (the
IEEE-754 default rounding). -/
def roundHalfEven (q : ℚ) : ℕ :=
  let f : ℕ := ratTruncNat q
  let r : ℚ := rsub q (mkRat f 1)
  if rltb r (mkRat 1 2) then f
  else if rltb (mkRat 1 2) r then f + 1
  else if f % 2 == 0 then f else f + 1

/-- Correct rounding of a nonnegative rational to the nearest IEEE-754
binary32 value (24-bit significand, round to nearest, ties to even), valid on
the normal range, which covers every intermediate value of
`Percent::from_percentage`. -/
def f32round (q : ℚ) : ℚ :=
  if rleb q (mkRat 0 1) then mkRat 0 1
  else
    let ulp := pow2 (floorLog2 q - 23)
    rmul (mkRat (roundHalfEven (rdiv q ulp)) 1) ulp

/-- The level byte computed by `Percent::from_percentage` for an already
capped input `m ≤ 100`: the Rust expression
`((m as f32 / 100f32) * 63f32) as u8`, with each `f32` operation modelled by
exact rational arithmetic followed by binary32 rounding. -/
def pctLevel (m : Nat) : Nat :=
  ratTruncNat (f32round (rmul (f32round (mkRat m 100)) (mkRat 63 1)))

/-- Percent from `protocol.rs`: a quantized percentage stored as a level byte. -/
structure Percent where
  value : Nat
deriving DecidableEq

def Percent.fromByte (value : Nat) : Percent :=
  { value := min value 63 }

def Percent.fromPercentage (value : Nat) : Percent :=
  { value := pctLevel (min value 100) }

def Percent.asByte (p : Percent) : Nat := p.value

inductive ToggleOption
  | On
  | Off
deriving DecidableEq

def ToggleOption.asByte : ToggleOption → Nat
  | .On => 0x01
  | .Off => 0x00

inductive AutoglideSemitones
  | MinusTwelve | MinusEleven | MinusTen | MinusNine | MinusEight | MinusSeven
  | MinusSix | MinusFive | MinusFour | MinusThree | MinusTwo | MinusOne
  | Zero
  | PlusOne | PlusTwo | PlusThree | PlusFour | PlusFive | PlusSix
  | PlusSeven | PlusEight | PlusNine | PlusTen | PlusEleven | PlusTwelve
deriving DecidableEq

def AutoglideSemitones.asByte : AutoglideSemitones → Nat
  | .MinusTwelve => 0x00
  | .MinusEleven => 0x01
  | .MinusTen => 0x02
  | .MinusNine => 0x03
  | .MinusEight => 0x04
  | .MinusSeven => 0x05
  | .MinusSix => 0x06
  | .MinusFive => 0x07
  | .MinusFour => 0x08
  | .MinusThree => 0x09
  | .MinusTwo => 0x0a
  | .MinusOne => 0x0b
  | .Zero => 0x0c
  | .PlusOne => 0x0d
  | .PlusTwo => 0x0e
  | .PlusThree => 0x0f
  | .PlusFour => 0x10
  | .PlusFive => 0x11
  | .PlusSix => 0x12
  | .PlusSeven => 0x13
  | .PlusEight => 0x14
  | .PlusNine => 0x15
  | .PlusTen => 0x16
  | .PlusEleven => 0x17
  | .PlusTwelve => 0x18

inductive BlendMode
  | Switch
  | Blend
deriving DecidableEq

def BlendMode.asByte : BlendMode → Nat
  | .Switch => 0x01
  | .Blend => 0x00

inductive OscRange
  | ThirtyTwo
  | Sixteen
  | Eight
  | PlusMinusTen
deriving DecidableEq

def OscRange.asByte : OscRange → Nat
  | .ThirtyTwo => 0x00
  | .Sixteen => 0x01
  | .Eight => 0x02
  | .PlusMinusTen => 0x03

inductive KeyTrackMode
  | Track
  | Hold
deriving DecidableEq

def KeyTrackMode.asByte : KeyTrackMode → Nat
  | .Track => 0x00
  | .Hold => 0x01

inductive LfoIndex
  | One
  | Two
  | Three
  | Four
  | Five
deriving DecidableEq

def LfoIndex.asByte : LfoIndex → Nat
  | .One => 0x00
  | .Two => 0x01
  | .Three => 0x02
  | .Four => 0x03
  | .Five => 0x04

inductive LfoShape
  | Sine
  | Triangle
  | FallingSaw
  | Square
  | RisingSaw
deriving DecidableEq

def LfoShape.asByte : LfoShape → Nat
  | .Sine => 0x00
  | .Triangle => 0x01
  | .FallingSaw => 0x02
  | .Square => 0x03
  | .RisingSaw => 0x04

inductive LfoPhaseOffset
  | Zero
  | FourtyFive
  | Ninety
  | HundredThirtyFive
  | HundredEighty
  | TwoHundredTwentyFive
  | TwoHundredSeventy
  | ThreeHundredFifteen
deriving DecidableEq

def LfoPhaseOffset.asByte : LfoPhaseOffset → Nat
  | .Zero => 0x00
  | .FourtyFive => 0x01
  | .Ninety => 0x02
  | .HundredThirtyFive => 0x03
  | .HundredEighty => 0x04
  | .TwoHundredTwentyFive => 0x05
  | .TwoHundredSeventy => 0x06
  | .ThreeHundredFifteen => 0x07

inductive ModSource
  | Off
  | AfterTouch
  | ModWheel
  | Velocity
deriving DecidableEq

def ModSource.asByte : ModSource → Nat
  | .Off => 0x00
  | .AfterTouch => 0x01
  | .ModWheel => 0x02
  | .Velocity => 0x03

inductive AssignOutOption
  | Osc1
  | Osc2
  | Velocity
  | ModWheel
  | AfterTouch
deriving DecidableEq

def AssignOutOption.asByte : AssignOutOption → Nat
  | .Osc1 => 0x00
  | .Osc2 => 0x01
  | .Velocity => 0x02
  | .ModWheel => 0x03
  | .AfterTouch => 0x04

/-- Modelled from the spec: the envelope retrigger mode value codec
(staccato = 0x00, legato = 0x01).  The type `RetriggerMode` and the variant
`GlobalSetting::EnvRetriggerMode` are referenced by `parser.rs` and by the
application, but their declaration in `protocol.rs` is missing from the
source snapshot. -/
inductive RetriggerMode
  | Staccato
  | Legato
deriving DecidableEq

def RetriggerMode.asByte : RetriggerMode → Nat
  | .Staccato => 0x00
  | .Legato => 0x01

inductive Channel
  | One | Two | Three | Four | Five | Six | Seven | Eight
  | Nine | Ten | Eleven | Twelve | Thirteen | Fourteen | Fifteen | Sixteen
deriving DecidableEq

/-- The wire byte of a MIDI channel, exactly as the literal table in
`Channel::as_byte` (note: both `Fourteen` and `Fifteen` map to 0x0d there,
and no channel maps to 0x0e). -/
def Channel.asByte : Channel → Nat
  | .One => 0x00
  | .Two => 0x01
  | .Three => 0x02
  | .Four => 0x03
  | .Five => 0x04
  | .Six => 0x05
  | .Seven => 0x06
  | .Eight => 0x07
  | .Nine => 0x08
  | .Ten => 0x09
  | .Eleven => 0x0a
  | .Twelve => 0x0b
  | .Thirteen => 0x0c
  | .Fourteen => 0x0d
  | .Fifteen => 0x0d
  | .Sixteen => 0x0f

inductive DeviceId
  | Channel (c : Channel)
  | Multicast
deriving DecidableEq

def DeviceId.asByte : DeviceId → Nat
  | .Channel c => c.asByte
  | .Multicast => 0x7f

inductive GlobalSetting
  | ParaphonicMode (t : ToggleOption)
  | OscSync (t : ToggleOption)
  | Osc1BlendMode (b : BlendMode)
  | Osc2BlendMode (b : BlendMode)
  | Osc1TunePotBypass (t : ToggleOption)
  | Osc2TunePotBypass (t : ToggleOption)
  | Osc1Range (r : OscRange)
  | Osc2Range (r : OscRange)
  | Osc2KeyTrack (k : KeyTrackMode)
  | Osc1Autoglide (s : AutoglideSemitones)
  | Osc2Autoglide (s : AutoglideSemitones)
  | LfoBlendMode (b : BlendMode)
  | LfoKeySync (t : ToggleOption)
  | LfoOneShot (t : ToggleOption)
  | LfoRetrigger (t : ToggleOption)
  | LfoMidiSync (t : ToggleOption)
  | LfoDepth (p : Percent)
  | LfoShapeOrder (i : LfoIndex) (s : LfoShape)
  | LfoShapePhase (i : LfoIndex) (o : LfoPhaseOffset)
  | LfoResetOrder
  | VcfKeyTracking (t : ToggleOption)
  | VcfModDepth (p : Percent)
  | VcfModSource (m : ModSource)
  | MidiChannel (c : Channel)
  | DisableMidiDips (t : ToggleOption)
  | PolyChainMode (t : ToggleOption)
  | KeyRangeMute (t : ToggleOption)
  | KeyRangeReset
  | AssignOut (o : AssignOutOption)
  | EnvRetriggerMode (m : RetriggerMode)
deriving DecidableEq

/-- The encoder `GlobalSetting::append_to`: push the variant's unique opcode
byte, then its payload byte(s), onto the buffer.  The match arms follow the
source order.  The final arm (`EnvRetriggerMode`, opcode 0x05 with a
staccato/legato payload byte) is modelled from the spec, since its encoder is
missing from the `protocol.rs` snapshot. -/
def GlobalSetting.appendTo (g : GlobalSetting) (buffer : List Nat) : List Nat :=
  match g with
  | .ParaphonicMode t => buffer ++ [0x0f, t.asByte]
  | .OscSync t => buffer ++ [0x0e, t.asByte]
  | .Osc1BlendMode b => buffer ++ [0x20, b.asByte]
  | .Osc2BlendMode b => buffer ++ [0x21, b.asByte]
  | .Osc1TunePotBypass t => buffer ++ [0x22, t.asByte]
  | .Osc2TunePotBypass t => buffer ++ [0x23, t.asByte]
  | .Osc1Range r => buffer ++ [0x26, r.asByte]
  | .Osc2Range r => buffer ++ [0x27, r.asByte]
  | .Osc2KeyTrack k => buffer ++ [0x2a, k.asByte]
  | .LfoBlendMode b => buffer ++ [0x30, b.asByte]
  | .LfoKeySync t => buffer ++ [0x37, t.asByte]
  | .LfoOneShot t => buffer ++ [0x31, t.asByte]
  | .LfoRetrigger t => buffer ++ [0x3b, t.asByte]
  | .LfoMidiSync t => buffer ++ [0x35, t.asByte]
  | .LfoResetOrder => buffer ++ [0x39, 0x00]
  | .VcfKeyTracking t => buffer ++ [0x11, t.asByte]
  | .MidiChannel c => buffer ++ [0x00, c.asByte]
  | .DisableMidiDips t => buffer ++ [0x0a, t.asByte]
  | .PolyChainMode t => buffer ++ [0x08, t.asByte]
  | .KeyRangeMute t => buffer ++ [0x0b, t.asByte]
  | .KeyRangeReset => buffer ++ [0x06, 0x00]
  | .LfoDepth p => buffer ++ [0x34, p.asByte]
  | .VcfModDepth p => buffer ++ [0x14, p.asByte]
  | .LfoShapeOrder i s => buffer ++ [0x38, i.asByte, s.asByte]
  | .Osc1Autoglide s => buffer ++ [0x24, s.asByte]
  | .Osc2Autoglide s => buffer ++ [0x25, s.asByte]
  | .LfoShapePhase i o => buffer ++ [0x3a, i.asByte, o.asByte]
  | .VcfModSource m => buffer ++ [0x12, m.asByte]
  | .AssignOut o => buffer ++ [0x04, o.asByte]
  | .EnvRetriggerMode m => buffer ++ [0x05, m.asByte]

inductive NeutronMessage
  | SetGlobalSetting (id : DeviceId) (c : GlobalSetting)
  | RestoreGlobalSetting (id : DeviceId)
  | CalibrationModeCommand (id : DeviceId)
  | SoftwareVersionRequest (id : DeviceId)
  | SoftwareVersionResponse (id : DeviceId) (v : List Nat)
  | GlobalSettingUpdate (id : DeviceId) (c : GlobalSetting)
deriving DecidableEq

/-- The encoder `NeutronMessage::as_bytes`: header, device-address byte,
message-kind byte, optional protocol-version byte, payload, terminator. -/
def NeutronMessage.asBytes : NeutronMessage → List Nat
  | .SetGlobalSetting id c =>
      c.appendTo (NEUTRON_MESSAGE_HEADER ++ [id.asByte, 0x0a]) ++ [SYSEX_EOX]
  | .RestoreGlobalSetting id =>
      NEUTRON_MESSAGE_HEADER ++ [id.asByte, 0x0b] ++ [SYSEX_EOX]
  | .CalibrationModeCommand id =>
      NEUTRON_MESSAGE_HEADER ++ [id.asByte, 0x10] ++ [SYSEX_EOX]
  | .SoftwareVersionRequest id =>
      NEUTRON_MESSAGE_HEADER ++ [id.asByte, 0x73] ++ [SYSEX_EOX]
  | .SoftwareVersionResponse id v =>
      NEUTRON_MESSAGE_HEADER ++ [id.asByte, 0x74, COMMS_PROTOCOL_V1] ++ v ++ [SYSEX_EOX]
  | .GlobalSettingUpdate id c =>
      c.appendTo (NEUTRON_MESSAGE_HEADER ++ [id.asByte, 0x5a, COMMS_PROTOCOL_V1]) ++ [SYSEX_EOX]

/-! Model of the nom parser combinators used by `parser.rs` (complete-input
versions).  `PResult.ok rest v` is `Ok((rest, v))`; `PResult.err` is the
recoverable `Err::Error` (an `alt` tries its next branch); `PResult.fail` is
the unrecoverable `Err::Failure` produced by `cut` (an `alt` stops at it). -/

inductive PResult (α : Type) where
  | ok (rest : List Nat) (value : α)
  | err
  | fail
deriving DecidableEq

def Parser (α : Type) : Type := List Nat → PResult α

/-- Match a literal byte sequence at the head of the input, returning the
rest of the input on success (what nom's `tag` does to the input slice). -/
def tagRun : List Nat → List Nat → Option (List Nat)
  | [], input => some input
  | _ :: _, [] => none
  | a :: as, b :: bs => if a == b then tagRun as bs else none

/-- nom `tag`: recognize a literal byte sequence, returning it and the rest. -/
def tag (t : List Nat) : Parser (List Nat) := fun input =>
  match tagRun t input with
  | some rest => .ok rest t
  | none => .err

/-- nom `map`. -/
def pmap {α β : Type} (p : Parser α) (f : α → β) : Parser β := fun input =>
  match p input with
  | .ok rest v => .ok rest (f v)
  | .err => .err
  | .fail => .fail

/-- nom `alt` over two branches: try the second only on a recoverable error. -/
def alt2 {α : Type} (p q : Parser α) : Parser α := fun input =>
  match p input with
  | .ok rest v => .ok rest v
  | .err => q input
  | .fail => .fail

/-- nom `alt` over a list of branches, tried in order. -/
def altL {α : Type} : List (Parser α) → Parser α
  | [] => fun _ => .err
  | p :: ps => alt2 p (altL ps)

/-- nom `cut`: turn a recoverable error into an unrecoverable failure. -/
def cut {α : Type} (p : Parser α) : Parser α := fun input =>
  match p input with
  | .ok rest v => .ok rest v
  | .err => .fail
  | .fail => .fail

/-- nom `preceded`. -/
def preceded {α β : Type} (p : Parser α) (q : Parser β) : Parser β := fun input =>
  match p input with
  | .ok rest _ => q rest
  | .err => .err
  | .fail => .fail

/-- nom `terminated`. -/
def terminated {α β : Type} (p : Parser α) (q : Parser β) : Parser α := fun input =>
  match p input with
  | .ok rest v =>
      match q rest with
      | .ok rest2 _ => .ok rest2 v
      | .err => .err
      | .fail => .fail
  | .err => .err
  | .fail => .fail

/-- nom `pair`. -/
def ppair {α β : Type} (p : Parser α) (q : Parser β) : Parser (α × β) := fun input =>
  match p input with
  | .ok rest v =>
      match q rest with
      | .ok rest2 w => .ok rest2 (v, w)
      | .err => .err
      | .fail => .fail
  | .err => .err
  | .fail => .fail

/-- nom `separated_pair`. -/
def separated_pair {α β γ : Type} (p : Parser α) (sep : Parser β) (q : Parser γ) :
    Parser (α × γ) := fun input =>
  match p input with
  | .ok rest v =>
      match sep rest with
      | .ok rest2 _ =>
          match q rest2 with
          | .ok rest3 w => .ok rest3 (v, w)
          | .err => .err
          | .fail => .fail
      | .err => .err
      | .fail => .fail
  | .err => .err
  | .fail => .fail

/-- nom `delimited`. -/
def delimited {α β γ : Type} (a : Parser α) (b : Parser β) (c : Parser γ) :
    Parser β := fun input =>
  match a input with
  | .ok rest _ =>
      match b rest with
      | .ok rest2 v =>
          match c rest2 with
          | .ok rest3 _ => .ok rest3 v
          | .err => .err
          | .fail => .fail
      | .err => .err
      | .fail => .fail
  | .err => .err
  | .fail => .fail

/-- nom `take(1usize)`: one byte of input, error on empty input. -/
def take1 : Parser (List Nat) := fun input =>
  match input with
  | [] => .err
  | b :: rest => .ok rest [b]

/-- nom `is_not(set)`: the longest nonempty input run containing no byte of
`set`; a recoverable error when that run is empty. -/
def isNot (set : List Nat) : Parser (List Nat) := fun input =>
  let t := input.takeWhile (fun b => !(List.elem b set))
  if t.isEmpty then .err else .ok (input.drop t.length) t

/-! The parsers of `parser.rs`, branch for branch. -/

def toggle_option : Parser ToggleOption :=
  altL [
    pmap (tag [0x01]) (fun _ => ToggleOption.On),
    pmap (tag [0x00]) (fun _ => ToggleOption.Off)]

def percent : Parser Percent :=
  pmap take1 (fun p => Percent.fromByte (p.headD 0))

def blend_mode : Parser BlendMode :=
  altL [
    pmap (tag [0x01]) (fun _ => BlendMode.Switch),
    pmap (tag [0x00]) (fun _ => BlendMode.Blend)]

def retrigger_mode : Parser RetriggerMode :=
  altL [
    pmap (tag [0x01]) (fun _ => RetriggerMode.Legato),
    pmap (tag [0x00]) (fun _ => RetriggerMode.Staccato)]

def osc_range : Parser OscRange :=
  altL [
    pmap (tag [0x00]) (fun _ => OscRange.ThirtyTwo),
    pmap (tag [0x01]) (fun _ => OscRange.Sixteen),
    pmap (tag [0x02]) (fun _ => OscRange.Eight),
    pmap (tag [0x03]) (fun _ => OscRange.PlusMinusTen)]

def autoglide_semitones : Parser AutoglideSemitones :=
  alt2
    (altL [
      pmap (tag [0x00]) (fun _ => AutoglideSemitones.MinusTwelve),
      pmap (tag [0x01]) (fun _ => AutoglideSemitones.MinusEleven),
      pmap (tag [0x02]) (fun _ => AutoglideSemitones.MinusTen),
      pmap (tag [0x03]) (fun _ => AutoglideSemitones.MinusNine),
      pmap (tag [0x04]) (fun _ => AutoglideSemitones.MinusEight),
      pmap (tag [0x05]) (fun _ => AutoglideSemitones.MinusSeven),
      pmap (tag [0x06]) (fun _ => AutoglideSemitones.MinusSix),
      pmap (tag [0x07]) (fun _ => AutoglideSemitones.MinusFive),
      pmap (tag [0x08]) (fun _ => AutoglideSemitones.MinusFour),
      pmap (tag [0x09]) (fun _ => AutoglideSemitones.MinusThree),
      pmap (tag [0x0a]) (fun _ => AutoglideSemitones.MinusTwo),
      pmap (tag [0x0b]) (fun _ => AutoglideSemitones.MinusOne)])
    (altL [
      pmap (tag [0x0c]) (fun _ => AutoglideSemitones.Zero),
      pmap (tag [0x0d]) (fun _ => AutoglideSemitones.PlusOne),
      pmap (tag [0x0e]) (fun _ => AutoglideSemitones.PlusTwo),
      pmap (tag [0x0f]) (fun _ => AutoglideSemitones.PlusThree),
      pmap (tag [0x10]) (fun _ => AutoglideSemitones.PlusFour),
      pmap (tag [0x11]) (fun _ => AutoglideSemitones.PlusFive),
      pmap (tag [0x12]) (fun _ => AutoglideSemitones.PlusSix),
      pmap (tag [0x13]) (fun _ => AutoglideSemitones.PlusSeven),
      pmap (tag [0x14]) (fun _ => AutoglideSemitones.PlusEight),
      pmap (tag [0x15]) (fun _ => AutoglideSemitones.PlusNine),
      pmap (tag [0x16]) (fun _ => AutoglideSemitones.PlusTen),
      pmap (tag [0x17]) (fun _ => AutoglideSemitones.PlusEleven),
      pmap (tag [0x18]) (fun _ => AutoglideSemitones.PlusTwelve)])

def key_track_mode : Parser KeyTrackMode :=
  altL [
    pmap (tag [0x01]) (fun _ => KeyTrackMode.Hold),
    pmap (tag [0x00]) (fun _ => KeyTrackMode.Track)]

def lfo_index : Parser LfoIndex :=
  altL [
    pmap (tag [0x00]) (fun _ => LfoIndex.One),
    pmap (tag [0x01]) (fun _ => LfoIndex.Two),
    pmap (tag [0x02]) (fun _ => LfoIndex.Three),
    pmap (tag [0x03]) (fun _ => LfoIndex.Four),
    pmap (tag [0x04]) (fun _ => LfoIndex.Five)]

def lfo_shape : Parser LfoShape :=
  altL [
    pmap (tag [0x00]) (fun _ => LfoShape.Sine),
    pmap (tag [0x01]) (fun _ => LfoShape.Triangle),
    pmap (tag [0x02]) (fun _ => LfoShape.FallingSaw),
    pmap (tag [0x03]) (fun _ => LfoShape.Square),
    pmap (tag [0x04]) (fun _ => LfoShape.RisingSaw)]

def lfo_phase_offset : Parser LfoPhaseOffset :=
  altL [
    pmap (tag [0x00]) (fun _ => LfoPhaseOffset.Zero),
    pmap (tag [0x01]) (fun _ => LfoPhaseOffset.FourtyFive),
    pmap (tag [0x02]) (fun _ => LfoPhaseOffset.Ninety),
    pmap (tag [0x03]) (fun _ => LfoPhaseOffset.HundredThirtyFive),
    pmap (tag [0x04]) (fun _ => LfoPhaseOffset.HundredEighty),
    pmap (tag [0x05]) (fun _ => LfoPhaseOffset.TwoHundredTwentyFive),
    pmap (tag [0x06]) (fun _ => LfoPhaseOffset.TwoHundredSeventy),
    pmap (tag [0x07]) (fun _ => LfoPhaseOffset.ThreeHundredFifteen)]

def mod_source : Parser ModSource :=
  altL [
    pmap (tag [0x00]) (fun _ => ModSource.Off),
    pmap (tag [0x01]) (fun _ => ModSource.AfterTouch),
    pmap (tag [0x02]) (fun _ => ModSource.ModWheel),
    pmap (tag [0x03]) (fun _ => ModSource.Velocity)]

def assign_out_option : Parser AssignOutOption :=
  altL [
    pmap (tag [0x00]) (fun _ => AssignOutOption.Osc1),
    pmap (tag [0x01]) (fun _ => AssignOutOption.Osc2),
    pmap (tag [0x02]) (fun _ => AssignOutOption.Velocity),
    pmap (tag [0x03]) (fun _ => AssignOutOption.ModWheel),
    pmap (tag [0x04]) (fun _ => AssignOutOption.AfterTouch)]

def channel : Parser Channel :=
  cut (altL [
    pmap (tag [0x00]) (fun _ => Channel.One),
    pmap (tag [0x01]) (fun _ => Channel.Two),
    pmap (tag [0x02]) (fun _ => Channel.Three),
    pmap (tag [0x03]) (fun _ => Channel.Four),
    pmap (tag [0x04]) (fun _ => Channel.Five),
    pmap (tag [0x05]) (fun _ => Channel.Six),
    pmap (tag [0x06]) (fun _ => Channel.Seven),
    pmap (tag [0x07]) (fun _ => Channel.Eight),
    pmap (tag [0x08]) (fun _ => Channel.Nine),
    pmap (tag [0x09]) (fun _ => Channel.Ten),
    pmap (tag [0x0a]) (fun _ => Channel.Eleven),
    pmap (tag [0x0b]) (fun _ => Channel.Twelve),
    pmap (tag [0x0c]) (fun _ => Channel.Thirteen),
    pmap (tag [0x0d]) (fun _ => Channel.Fourteen),
    pmap (tag [0x0e]) (fun _ => Channel.Fifteen),
    pmap (tag [0x0f]) (fun _ => Channel.Sixteen)])

def global_setting : Parser GlobalSetting :=
  alt2
    (altL [
      pmap (preceded (tag [0x0f]) toggle_option) GlobalSetting.ParaphonicMode,
      pmap (preceded (tag [0x0e]) toggle_option) GlobalSetting.OscSync,
      pmap (preceded (tag [0x20]) blend_mode) GlobalSetting.Osc1BlendMode,
      pmap (preceded (tag [0x21]) blend_mode) GlobalSetting.Osc2BlendMode,
      pmap (preceded (tag [0x22]) toggle_option) GlobalSetting.Osc1TunePotBypass,
      pmap (preceded (tag [0x23]) toggle_option) GlobalSetting.Osc2TunePotBypass,
      pmap (preceded (tag [0x26]) osc_range) GlobalSetting.Osc1Range,
      pmap (preceded (tag [0x27]) osc_range) GlobalSetting.Osc2Range,
      pmap (preceded (tag [0x2a]) key_track_mode) GlobalSetting.Osc2KeyTrack,
      pmap (preceded (tag [0x30]) blend_mode) GlobalSetting.LfoBlendMode,
      pmap (preceded (tag [0x37]) toggle_option) GlobalSetting.LfoKeySync,
      pmap (preceded (tag [0x31]) toggle_option) GlobalSetting.LfoOneShot,
      pmap (preceded (tag [0x3b]) toggle_option) GlobalSetting.LfoRetrigger,
      pmap (preceded (tag [0x35]) toggle_option) GlobalSetting.LfoMidiSync,
      pmap (preceded (tag [0x34]) percent) GlobalSetting.LfoDepth,
      pmap (tag [0x39, 0x00]) (fun _ => GlobalSetting.LfoResetOrder),
      pmap (preceded (tag [0x11]) toggle_option) GlobalSetting.VcfKeyTracking,
      pmap (preceded (tag [0x14]) percent) GlobalSetting.VcfModDepth,
      pmap (preceded (tag [0x00]) channel) GlobalSetting.MidiChannel,
      pmap (preceded (tag [0x0a]) toggle_option) GlobalSetting.DisableMidiDips,
      pmap (preceded (tag [0x08]) toggle_option) GlobalSetting.PolyChainMode])
    (altL [
      pmap (preceded (tag [0x24]) autoglide_semitones) GlobalSetting.Osc1Autoglide,
      pmap (preceded (tag [0x25]) autoglide_semitones) GlobalSetting.Osc2Autoglide,
      pmap (preceded (tag [0x0b]) toggle_option) GlobalSetting.KeyRangeMute,
      pmap (tag [0x06, 0x00]) (fun _ => GlobalSetting.KeyRangeReset),
      pmap (preceded (tag [0x38]) (ppair lfo_index lfo_shape))
        (fun x => GlobalSetting.LfoShapeOrder x.1 x.2),
      pmap (preceded (tag [0x3a]) (ppair lfo_index lfo_phase_offset))
        (fun x => GlobalSetting.LfoShapePhase x.1 x.2),
      pmap (preceded (tag [0x12]) mod_source) GlobalSetting.VcfModSource,
      pmap (preceded (tag [0x04]) assign_out_option) GlobalSetting.AssignOut,
      pmap (preceded (tag [0x05]) retrigger_mode) GlobalSetting.EnvRetriggerMode])

def device_id : Parser DeviceId :=
  altL [
    pmap (tag [0x7f]) (fun _ => DeviceId.Multicast),
    pmap channel DeviceId.Channel]

/-- The `version` parser: the bytes of the version string (the source turns
them into a `String` with `from_utf8_lossy`, the identity on the valid UTF-8
bytes that `String::as_bytes` produced). -/
def version : Parser (List Nat) :=
  pmap (isNot [SYSEX_EOX]) (fun v => v)

def neutron_message : Parser NeutronMessage :=
  delimited (tag NEUTRON_MESSAGE_HEADER)
    (altL [
      pmap (separated_pair device_id (tag [0x0a]) global_setting)
        (fun x => NeutronMessage.SetGlobalSetting x.1 x.2),
      pmap (terminated device_id (tag [0x0b]))
        (fun id => NeutronMessage.RestoreGlobalSetting id),
      pmap (terminated device_id (tag [0x73]))
        (fun id => NeutronMessage.SoftwareVersionRequest id),
      pmap (separated_pair device_id (tag [0x74, COMMS_PROTOCOL_V1]) version)
        (fun x => NeutronMessage.SoftwareVersionResponse x.1 x.2),
      pmap (separated_pair device_id (tag [0x5a, COMMS_PROTOCOL_V1]) global_setting)
        (fun x => NeutronMessage.GlobalSettingUpdate x.1 x.2)])
    (tag [SYSEX_EOX])

/-- The dispatch-byte table of the parameter catalogue: the first byte pushed
by each arm of `GlobalSetting::append_to`, in source order (opcode 0x05 of the
spec-modelled `EnvRetriggerMode` last). -/
def opcodeTable : List Nat :=
  [0x0f, 0x0e, 0x20, 0x21, 0x22, 0x23, 0x26, 0x27, 0x2a, 0x30, 0x37, 0x31,
   0x3b, 0x35, 0x39, 0x11, 0x00, 0x0a, 0x08, 0x0b, 0x06, 0x34, 0x14, 0x38,
   0x24, 0x25, 0x3a, 0x12, 0x04, 0x05]

set_option maxRecDepth 1000000

/-! Helper lemmas shared by the claim theorems. -/

/-- Helper: on the capped domain of `Percent::from_percentage`, the exact
binary32 computation agrees with the integer floor formula. -/
theorem pctLevel_floor : ∀ m, m < 101 → pctLevel m = m * 63 / 100 := by decide

/-- Helper: dropping the length of a left factor of an append. -/
theorem drop_len_append : ∀ (l₁ l₂ : List Nat), List.drop l₁.length (l₁ ++ l₂) = l₂ := by
  intro l₁ l₂
  induction l₁ with
  | nil => rfl
  | cons a as ih => simp [ih]

/-- Helper: membership in the one-byte terminator set is equality with it. -/
theorem elem_eox (b : Nat) : List.elem b [SYSEX_EOX] = (b == SYSEX_EOX) := by
  cases hbe : b == SYSEX_EOX <;> simp [List.elem, hbe]

/-- Helper: a terminator-free run followed by the terminator is taken whole. -/
theorem takeWhile_until_eox : ∀ (v : List Nat), (∀ x ∈ v, x ≠ SYSEX_EOX) →
    (v ++ [SYSEX_EOX]).takeWhile (fun b => !(List.elem b [SYSEX_EOX])) = v := by
  intro v
  induction v with
  | nil => intro _; simp [List.takeWhile, elem_eox]
  | cons a as ih =>
    intro h
    have ha : ¬(a = SYSEX_EOX) := h a (by simp)
    have iha := ih (fun x hx => h x (by simp [hx]))
    simp [elem_eox] at iha
    simp [List.takeWhile_cons, elem_eox, ha, iha]

/-- Helper: the `version` payload parser consumes a nonempty terminator-free
run whole and stops exactly at the terminator. -/
theorem version_bytes (c : Nat) (v : List Nat) (hv : ∀ x ∈ c :: v, x ≠ SYSEX_EOX) :
    isNot [SYSEX_EOX] ((c :: v) ++ [SYSEX_EOX]) = .ok [SYSEX_EOX] (c :: v) := by
  have ht := takeWhile_until_eox (c :: v) hv
  simp only [isNot, ht]
  have hd : List.drop (c :: v).length ((c :: v) ++ [SYSEX_EOX]) = [SYSEX_EOX] :=
    drop_len_append (c :: v) [SYSEX_EOX]
  simp [hd]

/-- Helper: a whole version-response frame decodes once its device-address
byte decodes and its version run is nonempty and terminator-free. -/
theorem svr_decode_aux (idb : Nat) (id2 : DeviceId) (c : Nat) (v : List Nat)
    (hdev : ∀ rest, device_id (idb :: rest) = .ok rest id2)
    (hno : isNot [SYSEX_EOX] (c :: (v ++ [SYSEX_EOX])) = .ok [SYSEX_EOX] (c :: v)) :
    neutron_message
        (NEUTRON_MESSAGE_HEADER ++ idb :: 0x74 :: COMMS_PROTOCOL_V1 :: (c :: (v ++ [SYSEX_EOX]))) =
      .ok [] (.SoftwareVersionResponse id2 (c :: v)) := by
  simp [neutron_message, delimited, altL, alt2, pmap, separated_pair, terminated,
    version, tag, tagRun, NEUTRON_MESSAGE_HEADER, BEHRINGER_MANUFACTURER,
    SYSEX_MESSAGE_START, NEUTRON_DEVICE, COMMS_PROTOCOL_V1, hdev, hno]

/-! The claim theorems. -/

/-- Claim C1 (failing-input evidence): round-tripping is not the identity on
all non-percentage catalogue variants — `MidiChannel(Channel::Fifteen)`
encodes to the bytes `00 0d`, and the `global_setting` parser decodes those
bytes back as `MidiChannel(Channel::Fourteen)`. -/
theorem c1_midi_channel_fifteen_roundtrip_changes :
    GlobalSetting.appendTo (.MidiChannel .Fifteen) [] = [0x00, 0x0d] ∧
    global_setting (GlobalSetting.appendTo (.MidiChannel .Fifteen) []) =
      .ok [] (.MidiChannel .Fourteen) := by decide

/-- Claim C2 (failing-input evidence): `Channel::as_byte` does not send
channel N to byte N−1 for all sixteen channels — `Fifteen` yields 0x0d, the
same byte as `Fourteen` (0x0e is skipped), so the sixteen channels do not map
to sixteen distinct bytes; the broadcast marker does encode to 0x7f. -/
theorem c2_channel_byte_collision :
    Channel.asByte .Fifteen = 0x0d ∧ Channel.asByte .Fourteen = 0x0d ∧
    DeviceId.asByte (.Channel .Fifteen) = 0x0d ∧
    DeviceId.asByte .Multicast = 0x7f := by decide

/-- Claim C3 counterexample: a quantized-percentage payload byte above 0x3f
does not make the decoder fail — `34 40` decodes to `LfoDepth` at the clamped
level 63, and `14 ff` decodes to `VcfModDepth` at level 63. -/
theorem c3_out_of_range_percent_decodes :
    global_setting [0x34, 0x40] = .ok [] (.LfoDepth (Percent.mk 63)) ∧
    global_setting [0x14, 0xff] = .ok [] (.VcfModDepth (Percent.mk 63)) := by decide

/-- Claim C3 amended: decoding a quantized-percentage payload byte in
0x40..0xff after the LfoDepth opcode 0x34 or the VcfModDepth opcode 0x14
succeeds and clamps the stored level to 63, per `Percent::from_byte`. -/
theorem c3_amended_percent_clamps : ∀ b, b < 0x100 → 0x40 ≤ b →
    global_setting [0x34, b] = .ok [] (.LfoDepth (Percent.mk 63)) ∧
    global_setting [0x14, b] = .ok [] (.VcfModDepth (Percent.mk 63)) := by decide

/-- Claim C3 amended, witness at payload byte 0x41. -/
theorem c3_amended_percent_clamps_witness :
    global_setting [0x34, 0x41] = .ok [] (.LfoDepth (Percent.mk 63)) ∧
    global_setting [0x14, 0x41] = .ok [] (.VcfModDepth (Percent.mk 63)) :=
  c3_amended_percent_clamps 0x41 (by decide) (by decide)

/-- Claim C4 counterexample: the catalogue opcode of `DisableMidiDips` is
0x0a, which equals the message-kind opcode that `NeutronMessage::as_bytes`
writes for `SetGlobalSetting` (byte index 6 of the frame); likewise the
catalogue opcode 0x0b of `KeyRangeMute` equals the `RestoreGlobalSetting`
message-kind opcode. -/
theorem c4_opcode_overlap_with_message_kinds :
    (GlobalSetting.appendTo (.DisableMidiDips .On) []).headD 0 = 0x0a ∧
    ((NeutronMessage.SetGlobalSetting .Multicast (.DisableMidiDips .On)).asBytes).getD 6 0 = 0x0a ∧
    (GlobalSetting.appendTo (.KeyRangeMute .On) []).headD 0 = 0x0b ∧
    ((NeutronMessage.RestoreGlobalSetting .Multicast).asBytes).getD 6 0 = 0x0b := by decide

/-- Claim C4 amended: the catalogue dispatch bytes are pairwise distinct
(every variant's first emitted byte lies in the duplicate-free
`opcodeTable`), and none of them equals the message-kind opcodes 0x73, 0x74
or 0x5a; the catalogue does however reuse 0x0a and 0x0b, which also serve as
the `SetGlobalSetting` and `RestoreGlobalSetting` message-kind opcodes at a
different frame position. -/
theorem c4_amended_opcode_exclusivity :
    opcodeTable.Nodup ∧
    (∀ g : GlobalSetting, (g.appendTo []).headD 0 ∈ opcodeTable) ∧
    opcodeTable.filter (fun b => ([0x73, 0x74, 0x5a] : List Nat).contains b) = [] ∧
    0x0a ∈ opcodeTable ∧ 0x0b ∈ opcodeTable := by
  refine ⟨by decide, ?_, by decide, by decide, by decide⟩
  intro g
  cases g <;> simp [GlobalSetting.appendTo, opcodeTable]

/-- Claim C5 counterexample: the decoder does not accept an arbitrary
placeholder payload byte after the unit-payload opcodes — `39 01` and
`06 01` both fail to decode. -/
theorem c5_placeholder_byte_validated :
    global_setting [0x39, 0x01] = .err ∧
    global_setting [0x06, 0x01] = .err := by decide

/-- Claim C5 amended: for the unit-payload variants `LfoResetOrder` (0x39)
and `KeyRangeReset` (0x06) the decoder requires the placeholder payload byte
to be exactly 0x00 — it succeeds on `39 00` and `06 00` and fails for every
nonzero placeholder byte. -/
theorem c5_amended_placeholder_must_be_zero :
    global_setting [0x39, 0x00] = .ok [] .LfoResetOrder ∧
    global_setting [0x06, 0x00] = .ok [] .KeyRangeReset ∧
    (∀ b, b < 0x100 → 0x01 ≤ b →
      global_setting [0x39, b] = .err ∧ global_setting [0x06, b] = .err) := by decide

/-- Claim C5 amended, witness at placeholder byte 0x02. -/
theorem c5_amended_placeholder_must_be_zero_witness :
    global_setting [0x39, 0x02] = .err ∧ global_setting [0x06, 0x02] = .err :=
  ⟨(c5_amended_placeholder_must_be_zero.2.2 0x02 (by decide) (by decide)).1,
   (c5_amended_placeholder_must_be_zero.2.2 0x02 (by decide) (by decide)).2⟩

/-- Claim C6: `SetGlobalSetting(Multicast, ParaphonicMode(On))` encodes to
exactly `F0 00 20 32 28 7F 0A 0F 01 F7`, and `neutron_message` decodes that
buffer back to the same structured value with no input remaining. -/
theorem c6_paraphonic_broadcast_scenario :
    (NeutronMessage.SetGlobalSetting .Multicast (.ParaphonicMode .On)).asBytes =
      [0xf0, 0x00, 0x20, 0x32, 0x28, 0x7f, 0x0a, 0x0f, 0x01, 0xf7] ∧
    neutron_message [0xf0, 0x00, 0x20, 0x32, 0x28, 0x7f, 0x0a, 0x0f, 0x01, 0xf7] =
      .ok [] (.SetGlobalSetting .Multicast (.ParaphonicMode .On)) := by decide

/-- Claim C7: every device-address byte in 0x10..0x7e is rejected — the
`device_id` parser fails on it (with nom's unrecoverable failure, via `cut`),
and a whole-message decode whose address byte is such a byte fails too; no
such byte is ever mapped to a channel or to the broadcast marker. -/
theorem c7_invalid_device_byte_rejected : ∀ b rest, 0x10 ≤ b → b ≤ 0x7e →
    device_id (b :: rest) = .fail ∧
    neutron_message (NEUTRON_MESSAGE_HEADER ++ b :: rest) = .fail := by
  intro b rest h1 h2
  interval_cases b <;> exact ⟨rfl, rfl⟩

/-- Claim C7, witness at address byte 0x10. -/
theorem c7_invalid_device_byte_rejected_witness :
    device_id [0x10] = .fail ∧
    neutron_message (NEUTRON_MESSAGE_HEADER ++ [0x10]) = .fail :=
  c7_invalid_device_byte_rejected 0x10 [] (by decide) (by decide)

/-- Claim C8: for every percentage input, `Percent::from_percentage` (whose
`f32` arithmetic is modelled exactly, operation by operation, with binary32
rounding) produces the level `floor(min(x, 100) / 100 * 63)`; in particular
50 gives 31, 100 gives 63 and 0 gives 0. -/
theorem c8_from_percentage_quantization :
    ∀ x : Nat, (Percent.fromPercentage x).asByte = min x 100 * 63 / 100 := by
  intro x
  have hm : min x 100 < 101 := Nat.lt_succ_of_le (Nat.min_le_right x 100)
  exact pctLevel_floor (min x 100) hm

/-- Claim C9: every `Percent` built by the public constructors
`Percent::from_byte` and `Percent::from_percentage` stores a level of at most
63, so `as_byte` is always in 0x00..0x3f and the payload byte that
`append_to` emits for `LfoDepth` and `VcfModDepth` is at most 0x3f. -/
theorem c9_percent_invariant : ∀ (b : Nat) (buf : List Nat),
    (Percent.fromByte b).asByte ≤ 63 ∧
    (Percent.fromPercentage b).asByte ≤ 63 ∧
    GlobalSetting.appendTo (.LfoDepth (Percent.fromByte b)) buf =
      buf ++ [0x34, (Percent.fromByte b).asByte] ∧
    GlobalSetting.appendTo (.LfoDepth (Percent.fromPercentage b)) buf =
      buf ++ [0x34, (Percent.fromPercentage b).asByte] ∧
    GlobalSetting.appendTo (.VcfModDepth (Percent.fromByte b)) buf =
      buf ++ [0x14, (Percent.fromByte b).asByte] ∧
    GlobalSetting.appendTo (.VcfModDepth (Percent.fromPercentage b)) buf =
      buf ++ [0x14, (Percent.fromPercentage b).asByte] := by
  intro b buf
  have h1 : (Percent.fromByte b).asByte ≤ 63 := Nat.min_le_right b 63
  have h2 : (Percent.fromPercentage b).asByte ≤ 63 := by
    have hm : min b 100 < 101 := Nat.lt_succ_of_le (Nat.min_le_right b 100)
    have hp := pctLevel_floor (min b 100) hm
    show pctLevel (min b 100) ≤ 63
    omega
  exact ⟨h1, h2, rfl, rfl, rfl, rfl⟩

/-- Claim C10: a version-response message with an empty version string fails
to decode for every device address (the `version` parser requires at least
one byte before the terminator), while for every nonempty terminator-free
version byte string the whole frame decodes back to a version response
carrying exactly the same string. -/
theorem c10_version_response_roundtrip : ∀ (id : DeviceId) (c : Nat) (v : List Nat),
    neutron_message ((NeutronMessage.SoftwareVersionResponse id []).asBytes) = .err ∧
    ((∀ x ∈ c :: v, x ≠ SYSEX_EOX) →
      ∃ id2, neutron_message ((NeutronMessage.SoftwareVersionResponse id (c :: v)).asBytes) =
        .ok [] (.SoftwareVersionResponse id2 (c :: v))) := by
  intro id c v
  constructor
  · cases id with
    | Multicast => decide
    | Channel ch => cases ch <;> decide
  · intro h
    have hno := version_bytes c v h
    simp only [List.cons_append] at hno
    cases id with
    | Multicast =>
      exact ⟨.Multicast, by
        simpa [NeutronMessage.asBytes, DeviceId.asByte, Channel.asByte] using
          svr_decode_aux 0x7f .Multicast c v (fun _ => rfl) hno⟩
    | Channel ch =>
      cases ch with
      | One => exact ⟨.Channel .One, by
          simpa [NeutronMessage.asBytes, DeviceId.asByte, Channel.asByte] using
            svr_decode_aux 0x00 (.Channel .One) c v (fun _ => rfl) hno⟩
      | Two => exact ⟨.Channel .Two, by
          simpa [NeutronMessage.asBytes, DeviceId.asByte, Channel.asByte] using
            svr_decode_aux 0x01 (.Channel .Two) c v (fun _ => rfl) hno⟩
      | Three => exact ⟨.Channel .Three, by
          simpa [NeutronMessage.asBytes, DeviceId.asByte, Channel.asByte] using
            svr_decode_aux 0x02 (.Channel .Three) c v (fun _ => rfl) hno⟩
      | Four => exact ⟨.Channel .Four, by
          simpa [NeutronMessage.asBytes, DeviceId.asByte, Channel.asByte] using
            svr_decode_aux 0x03 (.Channel .Four) c v (fun _ => rfl) hno⟩
      | Five => exact ⟨.Channel .Five, by
          simpa [NeutronMessage.asBytes, DeviceId.asByte, Channel.asByte] using
            svr_decode_aux 0x04 (.Channel .Five) c v (fun _ => rfl) hno⟩
      | Six => exact ⟨.Channel .Six, by
          simpa [NeutronMessage.asBytes, DeviceId.asByte, Channel.asByte] using
            svr_decode_aux 0x05 (.Channel .Six) c v (fun _ => rfl) hno⟩
      | Seven => exact ⟨.Channel .Seven, by
          simpa [NeutronMessage.asBytes, DeviceId.asByte, Channel.asByte] using
            svr_decode_aux 0x06 (.Channel .Seven) c v (fun _ => rfl) hno⟩
      | Eight => exact ⟨.Channel .Eight, by
          simpa [NeutronMessage.asBytes, DeviceId.asByte, Channel.asByte] using
            svr_decode_aux 0x07 (.Channel .Eight) c v (fun _ => rfl) hno⟩
      | Nine => exact ⟨.Channel .Nine, by
          simpa [NeutronMessage.asBytes, DeviceId.asByte, Channel.asByte] using
            svr_decode_aux 0x08 (.Channel .Nine) c v (fun _ => rfl) hno⟩
      | Ten => exact ⟨.Channel .Ten, by
          simpa [NeutronMessage.asBytes, DeviceId.asByte, Channel.asByte] using
            svr_decode_aux 0x09 (.Channel .Ten) c v (fun _ => rfl) hno⟩
      | Eleven => exact ⟨.Channel .Eleven, by
          simpa [NeutronMessage.asBytes, DeviceId.asByte, Channel.asByte] using
            svr_decode_aux 0x0a (.Channel .Eleven) c v (fun _ => rfl) hno⟩
      | Twelve => exact ⟨.Channel .Twelve, by
          simpa [NeutronMessage.asBytes, DeviceId.asByte, Channel.asByte] using
            svr_decode_aux 0x0b (.Channel .Twelve) c v (fun _ => rfl) hno⟩
      | Thirteen => exact ⟨.Channel .Thirteen, by
          simpa [NeutronMessage.asBytes, DeviceId.asByte, Channel.asByte] using
            svr_decode_aux 0x0c (.Channel .Thirteen) c v (fun _ => rfl) hno⟩
      | Fourteen => exact ⟨.Channel .Fourteen, by
          simpa [NeutronMessage.asBytes, DeviceId.asByte, Channel.asByte] using
            svr_decode_aux 0x0d (.Channel .Fourteen) c v (fun _ => rfl) hno⟩
      | Fifteen => exact ⟨.Channel .Fourteen, by
          simpa [NeutronMessage.asBytes, DeviceId.asByte, Channel.asByte] using
            svr_decode_aux 0x0d (.Channel .Fourteen) c v (fun _ => rfl) hno⟩
      | Sixteen => exact ⟨.Channel .Sixteen, by
          simpa [NeutronMessage.asBytes, DeviceId.asByte, Channel.asByte] using
            svr_decode_aux 0x0f (.Channel .Sixteen) c v (fun _ => rfl) hno⟩

/-- Claim C10, witness: the version response with the empty string at the
broadcast address fails to decode, and with the one-byte string `"1"` it
round-trips. -/
theorem c10_version_response_roundtrip_witness :
    neutron_message ((NeutronMessage.SoftwareVersionResponse .Multicast []).asBytes) = .err ∧
    (∃ id2, neutron_message ((NeutronMessage.SoftwareVersionResponse .Multicast [0x31]).asBytes) =
      .ok [] (.SoftwareVersionResponse id2 [0x31])) :=
  ⟨(c10_version_response_roundtrip .Multicast 0x31 []).1,
   (c10_version_response_roundtrip .Multicast 0x31 []).2 (by decide)⟩

end Rustron
